import Mathlib

/-
Verification of the buffer-pool handoff and task-choreography core of
src/src/app.c (FreeRTOS sampling/streaming application).

Shallow embedding conventions:
* Samples are bytes, modelled as Nat; accelerometer components are modelled
  as rationals (the only scale factors the theorems touch are 0 and
  concrete small constants, for which rational and IEEE float arithmetic
  agree exactly).
* Bounded blocking calls (zero or finite timeouts) are modelled as
  succeed-iff-data-is-available-now; the success/failure of the external
  acknowledgment wait is an explicit Bool input.
* Board glue (LED writes, messages_print) and raw drivers (adc_read,
  mpu_get_accelerometer, bluetooth_read/write hardware side) are external
  collaborators; the observable calls the claims mention are logged as
  explicit effects or counters.
-/

namespace App

/-- Modelled from the spec: the buffer pool of buffer_queue.c, whose source is
not under src/ (only its caller app.c is). Section 4.1 of the spec gives its
contract: a fixed set of slots, a Free set from which buffer_queue_get_avail
removes a slot, a FIFO Queued list (oldest first) fed by buffer_queue_push and
drained from the front by buffer_queue_get_inuse, and buffer_queue_return
moving a slot back to Free. Checked-out slots are exactly those in neither
list. data holds the byte contents of every slot (the backing array
buffer_queue_mem, statically zero-initialised). -/
structure BufferQueue where
  free : List Nat
  queued : List Nat
  data : List (List Nat)
deriving DecidableEq

/-- buffer_queue_init like in app_init lines 244-247: all nmbr slots Free,
nothing queued, backing memory zeroed. -/
def buffer_queue_init (bufSize nmbr : Nat) : BufferQueue :=
  { free := List.range nmbr
    queued := []
    data := List.replicate nmbr (List.replicate bufSize 0) }

/-- acquire_free: remove a slot from Free (checked out by the producer), or
fail when Free is empty. Zero timeout in every call site of app.c, so the
blocking case never arises. -/
def buffer_queue_get_avail (q : BufferQueue) : Option (Nat × BufferQueue) :=
  match q.free with
  | [] => none
  | b :: rest => some (b, { q with free := rest })

/-- enqueue_full: append the slot at the back of the FIFO Queued list. -/
def buffer_queue_push (q : BufferQueue) (b : Nat) : BufferQueue :=
  { q with queued := q.queued ++ [b] }

/-- acquire_full: remove the oldest Queued slot (FIFO front), or fail when
Queued is empty (the bounded timeout elapsing is modelled as this failure). -/
def buffer_queue_get_inuse (q : BufferQueue) : Option (Nat × BufferQueue) :=
  match q.queued with
  | [] => none
  | b :: rest => some (b, { q with queued := rest })

/-- release: move a checked-out slot back to Free. -/
def buffer_queue_return (q : BufferQueue) (b : Nat) : BufferQueue :=
  { q with free := q.free ++ [b] }

/-- Write one byte into slot b at index idx (the store buf[idx] = val of
app.c line 137). -/
def bq_write (q : BufferQueue) (b idx val : Nat) : BufferQueue :=
  { q with data := q.data.set b ((q.data.getD b []).set idx val) }

/-- Read the contents of slot b. -/
def bq_read (q : BufferQueue) (b : Nat) : List Nat :=
  q.data.getD b []

/-- The queue created by xQueueCreate(1, sizeof(float[3])) in app_init line
241: a FreeRTOS queue of length one. -/
structure Mailbox (α : Type) where
  slot : Option α
deriving DecidableEq

/-- xQueueSendToBack with zero block time (vTaskMPU line 403): per the
FreeRTOS contract, the item is copied into the queue only when there is
space; on a full queue the call returns errQUEUE_FULL and the queue is
unchanged (xQueueSendToBack does not overwrite; that is the distinct
xQueueOverwrite API, which app.c does not use). Returns the updated queue
and whether the send succeeded (pdPASS). -/
def xQueueSendToBack {α : Type} (m : Mailbox α) (v : α) : Mailbox α × Bool :=
  match m.slot with
  | none => ({ slot := some v }, true)
  | some w => ({ slot := some w }, false)

/-- xQueueReceive with zero block time (app_update line 74): returns and
removes the stored item if present, else fails. -/
def xQueueReceive {α : Type} (m : Mailbox α) : Option α × Mailbox α :=
  (m.slot, { slot := none })

/-- Producer-side state of app_type used by adc_update: the pool, the
checked-out buffer (current_buffer, none encodes NULL) and the fill counter
samples_in_buffer. -/
structure AdcState where
  pool : BufferQueue
  current_buffer : Option Nat
  samples_in_buffer : Nat
deriving DecidableEq

/-- Acquisition phase of adc_update (app.c lines 111-133), entered when
current_buffer is NULL: try buffer_queue_get_avail; on failure reclaim by
buffer_queue_get_inuse + buffer_queue_return and set buf back to NULL (no
retry of the acquire in this call); on double failure the ERROR comment
branch does nothing. Lines 131-132 then store samples_in_buffer = 0 and
current_buffer = buf unconditionally. -/
def adc_acquire (s : AdcState) : AdcState :=
  match buffer_queue_get_avail s.pool with
  | some (b, pool) =>
      { pool := pool, current_buffer := some b, samples_in_buffer := 0 }
  | none =>
      match buffer_queue_get_inuse s.pool with
      | some (b, pool) =>
          { pool := buffer_queue_return pool b
            current_buffer := none
            samples_in_buffer := 0 }
      | none =>
          { pool := s.pool, current_buffer := none, samples_in_buffer := 0 }

/-- Sampling phase of adc_update (app.c lines 135-146), entered only when a
buffer is held: write adc_read at index samples_in_buffer, increment the
counter, and when it reaches bufSize push the buffer and clear
current_buffer. Also returns the (slot, index) of the write performed, if
any, so that bounds claims can speak about every store into the array. -/
def adc_write (bufSize sample : Nat) (s : AdcState) : AdcState × Option (Nat × Nat) :=
  match s.current_buffer with
  | none => (s, none)
  | some b =>
      let idx := s.samples_in_buffer
      let pool := bq_write s.pool b idx sample
      let n := idx + 1
      if n = bufSize then
        ({ pool := buffer_queue_push pool b
           current_buffer := none
           samples_in_buffer := n }, some (b, idx))
      else
        ({ pool := pool, current_buffer := some b, samples_in_buffer := n },
         some (b, idx))

/-- One call of adc_update (app.c lines 108-147): run the acquisition phase
only when no buffer is checked out, then the sampling phase. sample is the
value adc_read would return this iteration. -/
def adc_update (bufSize sample : Nat) (s : AdcState) : AdcState × Option (Nat × Nat) :=
  let s1 :=
    match s.current_buffer with
    | some _ => s
    | none => adc_acquire s
  adc_write bufSize sample s1

/-- Iterate adc_update over a list of pending adc_read values (one per
producer iteration), collecting every (slot, index) write performed. -/
def adc_run (bufSize : Nat) (s : AdcState) : List Nat → AdcState × List (Nat × Nat)
  | [] => (s, [])
  | v :: rest =>
      let r := adc_update bufSize v s
      let r2 := adc_run bufSize r.1 rest
      (r2.1, (match r.2 with | some p => [p] | none => []) ++ r2.2)

/-- Observable calls made by one consumer iteration: bluetooth_write of a
scaled sample, buffer_queue_return of a slot, xSemaphoreGive on
semaphore_error. -/
inductive Effect where
  | btWrite (v : ℚ)
  | bufRelease (b : Nat)
  | errorRaise
deriving DecidableEq

/-- Consumer-side state of app_type used by app_update: the pool, the last
applied accelerometer vector accel, and the length-one MPU queue. -/
structure AppState where
  pool : BufferQueue
  accel : ℚ × ℚ × ℚ
  queue_mpu : Mailbox (ℚ × ℚ × ℚ)
deriving DecidableEq

/-- One call of app_update (app.c lines 70-106): poll the MPU queue and on
success copy the vector into accel; acquire a full buffer with a bounded
timeout (modelled as: succeeds iff a Queued buffer exists); on success
forward every one of the bufSize samples scaled by accel[0], release the
buffer, then wait for the reply semaphore (ackArrives says whether the
acknowledgment arrives within APP_BLUETOOTH_TIMEOUT) and on timeout give
semaphore_error once. On acquisition failure the source has only an empty
ERROR comment branch. Returns the new state and the ordered effects. -/
def app_update (bufSize : Nat) (ackArrives : Bool) (s : AppState) : AppState × List Effect :=
  let recv := xQueueReceive s.queue_mpu
  let accel := match recv.1 with
               | some v => v
               | none => s.accel
  let s1 : AppState := { s with accel := accel, queue_mpu := recv.2 }
  match buffer_queue_get_inuse s1.pool with
  | none => (s1, [])
  | some (b, pool) =>
      let mult := accel.1
      let writes := (List.range bufSize).map
        (fun i => Effect.btWrite ((((bq_read pool b).getD i 0 : Nat) : ℚ) * mult))
      let pool2 := buffer_queue_return pool b
      let effs := writes ++ [Effect.bufRelease b] ++
        (if ackArrives then [] else [Effect.errorRaise])
      ({ s1 with pool := pool2 }, effs)

/-- Debounced edge events seen by one config_update call: for each of the
left (decrease) and right (increase) buttons, whether debouncer_is_edge and
debouncer_is_hi hold this poll. -/
structure ButtonEvent where
  left_edge : Bool
  left_hi : Bool
  right_edge : Bool
  right_hi : Bool
deriving DecidableEq

/-- Config-task state: the in-memory sample_period, whether the SD card is
present (config_sd_present), plus counters for the observable collaborator
calls the claims mention: config_writes counts config_write calls
(persistence attempts, app.c line 209) and config_signals counts
xSemaphoreGive(semaphore_config) calls (line 213). -/
structure ConfigState where
  sample_period : ℤ
  sd_present : Bool
  config_writes : Nat
  config_signals : Nat
deriving DecidableEq

/-- One call of config_update (app.c lines 167-215). modify_sample_rate is
set to -1 on a left-button edge at hi and to 1 on a right-button edge at hi
(the right button is examined second, so it wins when both fire). When
modify_sample_rate is nonzero: increment the period only if below
maxRate, decrement only if above minRate, then (always, whether or not the
period actually changed) call config_write when the SD is present and give
semaphore_config. LED writes are board glue and are not modelled. -/
def config_update (minRate maxRate : ℤ) (ev : ButtonEvent) (s : ConfigState) : ConfigState :=
  let modify : ℤ := 0
  let modify := if ev.left_edge && ev.left_hi then -1 else modify
  let modify := if ev.right_edge && ev.right_hi then 1 else modify
  if modify ≠ 0 then
    let p := s.sample_period
    let p := if modify > 0 ∧ p < maxRate then p + 1 else p
    let p := if modify < 0 ∧ p > minRate then p - 1 else p
    { sample_period := p
      sd_present := s.sd_present
      config_writes := if s.sd_present then s.config_writes + 1 else s.config_writes
      config_signals := s.config_signals + 1 }
  else s

/-- Iterate config_update over a list of button events. -/
def config_run (minRate maxRate : ℤ) (evs : List ButtonEvent) (s : ConfigState) : ConfigState :=
  evs.foldl (fun s e => config_update minRate maxRate e s) s

/-- State of the vTaskADC loop (app.c lines 304-325): the adc_update fields
plus the sample_period it reads, the pending config-changed semaphore, and
the local xTaskDelay. -/
structure TaskAdcState where
  pool : BufferQueue
  current_buffer : Option Nat
  samples_in_buffer : Nat
  sample_period : ℤ
  config_signal : Bool
  task_delay : ℤ
deriving DecidableEq

/-- The delay recomputation pdMS_TO_TICKS((sample_period+1)*10) of vTaskADC
lines 307 and 320, kept in milliseconds (DBG_PERIOD_MULTIPLIER = 1, and
pdMS_TO_TICKS is a fixed linear conversion). -/
def adc_task_delay (period : ℤ) : ℤ :=
  (period + 1) * 10

/-- The config-reload step of the vTaskADC loop (app.c lines 317-321): if
xSemaphoreTake(semaphore_config, 0) succeeds, consume the signal and
recompute xTaskDelay from the current sample_period; otherwise do nothing. -/
def adc_config_reload (s : TaskAdcState) : TaskAdcState :=
  if s.config_signal then
    { s with config_signal := false
             task_delay := adc_task_delay s.sample_period }
  else s

/- Concrete fixtures used by the scenario claims. -/

/-- Scenario A fixture: pool of APP_DATA_BUF_NMBR = 4 buffers of
APP_DATA_BUF_SIZE = 8 bytes, producer starting as vTaskADC does
(current_buffer = NULL, line 311). -/
def scenA_init : AdcState :=
  { pool := buffer_queue_init 8 4, current_buffer := none, samples_in_buffer := 0 }

/-- Scenario A run: 41 producer iterations (5 batches of 8 samples plus the
one iteration consumed by the reclaim), the iteration number serving as the
adc_read value so batches are distinguishable. -/
def scenA : AdcState × List (Nat × Nat) :=
  adc_run 8 scenA_init (List.range 41)

/-- Drain up to n buffers from the pool in consumer order, collecting their
contents. -/
def drain : Nat → BufferQueue → List (List Nat)
  | 0, _ => []
  | n + 1, q =>
      match buffer_queue_get_inuse q with
      | none => []
      | some (b, q2) => bq_read q2 b :: drain n q2

/-- An increase event: debounced edge on the right button with the
stabilised level hi. -/
def increase_event : ButtonEvent :=
  { left_edge := false, left_hi := false, right_edge := true, right_hi := true }

/-- Scenario C initial config state: period 0, SD present, no collaborator
calls yet. -/
def scenC_init : ConfigState :=
  { sample_period := 0, sd_present := true, config_writes := 0, config_signals := 0 }

/-- Scenario C run: 20 increase edges with APP_ADC_MIN_RATE = 0 and
APP_ADC_MAX_RATE = 9. -/
def scenC : ConfigState :=
  config_run 0 9 (List.replicate 20 increase_event) scenC_init

/-- An empty MPU mailbox. -/
def mpu_empty : Mailbox (ℚ × ℚ × ℚ) :=
  { slot := none }

/-- Consumer fixture with nothing queued (acquire_full will time out):
fresh pool, accel at its app_init value (0,0,0), empty MPU queue. -/
def underrun_state : AppState :=
  { pool := buffer_queue_init 8 4, accel := (0, 0, 0), queue_mpu := mpu_empty }

/-- Consumer fixture for the pre-first-vector scaling claim: slot 0 is
queued holding eight samples of value 10, accel still at its app_init value
(0,0,0), no vector ever sent to the MPU queue. -/
def scale_state : AppState :=
  { pool :=
      { free := [1, 2, 3]
        queued := [0]
        data := [List.replicate 8 10, List.replicate 8 0,
                 List.replicate 8 0, List.replicate 8 0] }
    accel := (0, 0, 0)
    queue_mpu := mpu_empty }

/-- Producer fixture at the overflow point: no buffer checked out, the Free
set empty, all four slots sitting in the Queued FIFO. -/
def reclaim_state : AdcState :=
  { pool :=
      { free := []
        queued := [0, 1, 2, 3]
        data := List.replicate 4 (List.replicate 8 0) }
    current_buffer := none
    samples_in_buffer := 5 }

/-- vTaskADC fixture with a pending config-changed signal: a half-filled
buffer is checked out (slot 2, three samples) and the stored task delay (20,
from the old period 1) is stale with respect to the new period 4. -/
def reload_state : TaskAdcState :=
  { pool := buffer_queue_init 8 4
    current_buffer := some 2
    samples_in_buffer := 3
    sample_period := 4
    config_signal := true
    task_delay := 20 }

/-- The producer invariant behind the in-bounds claim: whenever a buffer is
checked out, the fill counter is a valid index into it. -/
def AdcInv (bufSize : Nat) (s : AdcState) : Prop :=
  ∀ b, s.current_buffer = some b → s.samples_in_buffer < bufSize

/-- Every logged sample write of a producer run lands at an index below the
buffer size. -/
def writes_in_bounds (bufSize : Nat) (ws : List (Nat × Nat)) : Prop :=
  ∀ w ∈ ws, w.2 < bufSize

/- ------------------------------------------------------------------ -/
/- Helper lemmas                                                       -/
/- ------------------------------------------------------------------ -/

/-- One config_update call keeps the period inside [minRate, maxRate]. -/
theorem config_update_period_bounds (minRate maxRate : ℤ) (ev : ButtonEvent) (s : ConfigState)
    (h1 : minRate ≤ s.sample_period) (h2 : s.sample_period ≤ maxRate) :
    minRate ≤ (config_update minRate maxRate ev s).sample_period ∧
      (config_update minRate maxRate ev s).sample_period ≤ maxRate := by
  unfold config_update
  dsimp only
  split_ifs <;> (try dsimp only) <;> omega

/-- One adc_update call preserves the fill-counter invariant, and the write
it performs (if any) is at an index below bufSize. -/
theorem adc_update_inv (bufSize v : Nat) (s : AdcState) (hb : 1 ≤ bufSize)
    (h : AdcInv bufSize s) :
    AdcInv bufSize (adc_update bufSize v s).1 ∧
      ∀ b i, (adc_update bufSize v s).2 = some (b, i) → i < bufSize := by
  rcases s with ⟨⟨f, qd, dt⟩, cb, n⟩
  cases cb with
  | none =>
      cases f with
      | nil =>
          cases qd with
          | nil =>
              refine ⟨?_, ?_⟩
              · intro b hb'
                simp [adc_update, adc_acquire, adc_write, buffer_queue_get_avail,
                      buffer_queue_get_inuse] at hb'
              · intro b i hi
                simp [adc_update, adc_acquire, adc_write, buffer_queue_get_avail,
                      buffer_queue_get_inuse] at hi
          | cons q qs =>
              refine ⟨?_, ?_⟩
              · intro b hb'
                simp [adc_update, adc_acquire, adc_write, buffer_queue_get_avail,
                      buffer_queue_get_inuse, buffer_queue_return] at hb'
              · intro b i hi
                simp [adc_update, adc_acquire, adc_write, buffer_queue_get_avail,
                      buffer_queue_get_inuse, buffer_queue_return] at hi
      | cons a rest =>
          constructor
          · simp only [AdcInv, adc_update, adc_acquire, adc_write, buffer_queue_get_avail]
            split
            · intro b hb'
              simp at hb'
            · intro b hb'
              dsimp only at hb' ⊢
              omega
          · simp only [adc_update, adc_acquire, adc_write, buffer_queue_get_avail]
            split <;> intro b i hi <;> simp at hi <;> omega
  | some b0 =>
      have hn : n < bufSize := h b0 rfl
      constructor
      · simp only [AdcInv, adc_update, adc_write]
        split
        · intro b hb'
          simp at hb'
        · intro b hb'
          dsimp only at hb' ⊢
          omega
      · simp only [adc_update, adc_write]
        split <;> intro b i hi <;> simp at hi <;> omega

/-- Any producer run from a state satisfying the invariant performs only
in-bounds writes. -/
theorem adc_run_bounds (bufSize : Nat) (hb : 1 ≤ bufSize) :
    ∀ (samples : List Nat) (s : AdcState), AdcInv bufSize s →
      writes_in_bounds bufSize (adc_run bufSize s samples).2 := by
  intro samples
  induction samples with
  | nil =>
      intro s _ p hp
      simp [adc_run] at hp
  | cons v rest ih =>
      intro s h p hp
      obtain ⟨h1, h2⟩ := adc_update_inv bufSize v s hb h
      simp only [adc_run, List.mem_append] at hp
      rcases hp with hl | hr
      · cases hopt : (adc_update bufSize v s).2 with
        | none => rw [hopt] at hl; simp at hl
        | some q =>
            rw [hopt] at hl
            simp at hl
            subst hl
            exact h2 p.1 p.2 (by rw [hopt])
      · exact ih (adc_update bufSize v s).1 h1 p hr

/- ------------------------------------------------------------------ -/
/- Claim theorems                                                      -/
/- ------------------------------------------------------------------ -/

/-- C1 counterexample: starting from an empty mailbox, sending 1 and then 2
with no intervening receive and then receiving yields the value of the
FIRST send, not the second, falsifying the overwrite claim at this concrete
input. -/
theorem c1_overwrite_counterexample :
    (xQueueReceive (xQueueSendToBack (xQueueSendToBack (Mailbox.mk (none : Option Nat)) 1).1 2).1).1
        = some 1 ∧
      (some 1 : Option Nat) ≠ some 2 := by
  decide

/-- C1 (amended): the mailbox is a length-one FreeRTOS queue written with
xQueueSendToBack and zero block time, so a send succeeds only when the slot
is empty; in particular the second of two back-to-back sends always fails
and is discarded, and the following try_recv returns the value that was
already stored if any, else the value of the first send — never the value
of the second send. -/
theorem c1_mailbox_send_no_overwrite {α : Type} (m : Mailbox α) (v1 v2 : α) :
    (xQueueSendToBack (xQueueSendToBack m v1).1 v2).2 = false ∧
      (xQueueReceive (xQueueSendToBack (xQueueSendToBack m v1).1 v2).1).1
        = some (m.slot.getD v1) := by
  obtain ⟨slot⟩ := m
  cases slot <;> exact ⟨rfl, rfl⟩

/-- C2 counterexample: at the concrete overflow state (nothing checked out,
Free empty, slots 0,1,2,3 queued) one adc_update call reclaims slot 0 but
does NOT retry the acquire: it ends the iteration holding no buffer and
performing no sample write, falsifying the reclaim-then-retry-in-the-same-
iteration claim. -/
theorem c2_retry_counterexample :
    (adc_update 8 99 reclaim_state).1.current_buffer = none ∧
      (adc_update 8 99 reclaim_state).2 = none ∧
      (adc_update 8 99 reclaim_state).1.pool.free = [0] ∧
      (adc_update 8 99 reclaim_state).1.pool.queued = [1, 2, 3] := by
  decide

/-- C2 (amended): when no buffer is checked out, Free is empty and the
Queued FIFO is nonempty, adc_update dequeues the oldest Queued slot and
releases it to Free, discarding its data from the queue (the backing bytes
are untouched but never delivered); it does NOT retry the acquire in the
same iteration: the producer ends the iteration with no buffer checked out,
a fill counter reset to 0 and no sample written, and it is the NEXT
iteration whose acquire succeeds, writing its sample into the reclaimed
slot at index 0. -/
theorem c2_reclaim_no_retry (bufSize sample : Nat) (s : AdcState) (b : Nat) (rest : List Nat)
    (h0 : s.current_buffer = none) (hf : s.pool.free = []) (hq : s.pool.queued = b :: rest) :
    (adc_update bufSize sample s).1.current_buffer = none ∧
      (adc_update bufSize sample s).1.samples_in_buffer = 0 ∧
      (adc_update bufSize sample s).1.pool.free = [b] ∧
      (adc_update bufSize sample s).1.pool.queued = rest ∧
      (adc_update bufSize sample s).1.pool.data = s.pool.data ∧
      (adc_update bufSize sample s).2 = none ∧
      ∀ v, (adc_update bufSize v (adc_update bufSize sample s).1).2 = some (b, 0) := by
  rcases s with ⟨⟨f, qd, dt⟩, cb, n⟩
  dsimp only at h0 hf hq
  subst h0; subst hf; subst hq
  refine ⟨rfl, rfl, rfl, rfl, rfl, rfl, ?_⟩
  intro v
  simp [adc_update, adc_acquire, adc_write, buffer_queue_get_avail,
        buffer_queue_get_inuse, buffer_queue_return, buffer_queue_push, bq_write]
  split <;> simp

/-- C2 witness: the amended reclaim behaviour at the concrete overflow
state. -/
theorem c2_reclaim_no_retry_witness :
    (adc_update 8 7 reclaim_state).1.current_buffer = none ∧
      (adc_update 8 7 reclaim_state).1.samples_in_buffer = 0 ∧
      (adc_update 8 7 reclaim_state).1.pool.free = [0] ∧
      (adc_update 8 7 reclaim_state).1.pool.queued = [1, 2, 3] ∧
      (adc_update 8 7 reclaim_state).1.pool.data = reclaim_state.pool.data ∧
      (adc_update 8 7 reclaim_state).2 = none ∧
      ∀ v, (adc_update 8 v (adc_update 8 7 reclaim_state).1).2 = some (0, 0) :=
  c2_reclaim_no_retry 8 7 reclaim_state 0 [1, 2, 3] rfl rfl rfl

set_option maxRecDepth 100000 in
/-- C3 counterexample: in the Scenario A run (capacity 4, buffer size 8,
five batches produced with no consumer activity; the adc_read value is the
iteration number, so batch k holds the iteration numbers it was filled at)
the buffers retrievable by the consumer are exactly the 2nd, 3rd, 4th and
5th batches, and the 1st batch [0..7] is not retrievable — the reclaim
discarded the 1st batch enqueued, not the 2nd as claimed. -/
theorem c3_second_discarded_counterexample :
    drain 5 scenA.1.pool =
        [[8, 9, 10, 11, 12, 13, 14, 15],
         [16, 17, 18, 19, 20, 21, 22, 23],
         [24, 25, 26, 27, 28, 29, 30, 31],
         [33, 34, 35, 36, 37, 38, 39, 40]] ∧
      [0, 1, 2, 3, 4, 5, 6, 7] ∉ drain 5 scenA.1.pool := by
  decide

set_option maxRecDepth 100000 in
/-- C3 (amended): with pool capacity 4 and buffer size 8, filling and
enqueueing 5 batches with no consumer activity triggers exactly one reclaim
discard (41 iterations perform 40 sample writes: the single overflow
iteration writes nothing), the discarded batch is the 1st one enqueued
(the oldest Queued entry), and batches 2, 3, 4, 5 remain retrievable in
FIFO order. -/
theorem c3_overflow_discards_oldest :
    scenA.2.length = 40 ∧
      drain 5 scenA.1.pool =
        [[8, 9, 10, 11, 12, 13, 14, 15],
         [16, 17, 18, 19, 20, 21, 22, 23],
         [24, 25, 26, 27, 28, 29, 30, 31],
         [33, 34, 35, 36, 37, 38, 39, 40]] ∧
      scenA.1.pool.queued = [1, 2, 3, 0] := by
  decide

/-- C4 counterexample: in the Scenario C run (20 increase edges from period
0 with MAX = 9, SD present) config_write is called 20 times and
semaphore_config is given 20 times — once per edge, including the 11 edges
whose increment was rejected at MAX — falsifying the exactly-9-persistence-
calls claim. -/
theorem c4_nine_writes_counterexample :
    scenC.config_writes = 20 ∧ scenC.config_writes ≠ 9 ∧
      scenC.config_signals = 20 ∧ scenC.config_signals ≠ 9 := by
  decide

set_option maxRecDepth 100000 in
/-- C4 (amended): for 20 increase edges starting at period 0 with MAX = 9,
the final period is 9, but every one of the 20 edges triggers a persistence
call (config_write) and a config-changed signal, because config_update
persists and signals whenever modify_sample_rate is nonzero, whether or not
the bounded increment was accepted: 20 persistence calls and 20 signals,
not 9. -/
theorem c4_twenty_edges_twenty_writes :
    scenC.sample_period = 9 ∧ scenC.config_writes = 20 ∧ scenC.config_signals = 20 := by
  decide

/-- C5 counterexample: at a concrete state in which acquire_full times out
(the pool has no Queued buffer), the consumer iteration performs no
observable action at all — in particular it raises no error — falsifying
the claim that the timeout is reported. -/
theorem c5_error_report_counterexample :
    (app_update 8 true underrun_state).2 = [] ∧
      (app_update 8 false underrun_state).2 = [] ∧
      Effect.errorRaise ∉ (app_update 8 false underrun_state).2 := by
  decide

/-- C5 (amended): when acquire_full times out (no Queued buffer), the
consumer iteration does nothing observable — the ERROR branch of app_update
is empty, so no error is reported — leaving the pool unchanged, and the
task simply retries on its next iteration. -/
theorem c5_timeout_silent (bufSize : Nat) (ack : Bool) (s : AppState)
    (h : s.pool.queued = []) :
    (app_update bufSize ack s).2 = [] ∧ (app_update bufSize ack s).1.pool = s.pool := by
  rcases s with ⟨⟨f, qd, dt⟩, acc, ⟨mslot⟩⟩
  dsimp only at h
  subst h
  cases mslot <;>
    simp [app_update, xQueueReceive, buffer_queue_get_inuse]

/-- C5 witness: the amended behaviour at the concrete underrun state. -/
theorem c5_timeout_silent_witness :
    (app_update 8 true underrun_state).2 = [] ∧
      (app_update 8 true underrun_state).1.pool = underrun_state.pool :=
  c5_timeout_silent 8 true underrun_state rfl

/-- C6 counterexample: before any auxiliary vector has arrived, with slot 0
queued holding raw samples of value 10, the consumer forwards the value 0
at every position — not the raw value 10 — because the app_init scale is
0.0, not a neutral 1.0. -/
theorem c6_neutral_scale_counterexample :
    bq_read scale_state.pool 0 = List.replicate 8 10 ∧
      (app_update 8 true scale_state).2 =
        List.replicate 8 (Effect.btWrite 0) ++ [Effect.bufRelease 0] ∧
      Effect.btWrite (0 : ℚ) ≠ Effect.btWrite 10 := by
  refine ⟨rfl, ?_, by norm_num⟩
  simp [app_update, scale_state, mpu_empty, xQueueReceive, buffer_queue_get_inuse,
        buffer_queue_return, bq_read, mul_zero]

/-- C6 (amended): before the first auxiliary vector arrives (MPU queue
empty, accel still at its app_init value (0,0,0)), the consumer applies the
multiplicative scale 0: every forwarded sample equals 0, regardless of the
raw bytes stored in the buffer. -/
theorem c6_initial_scale_zero (bufSize : Nat) (ack : Bool) (s : AppState) (b : Nat)
    (rest : List Nat) (hq : s.pool.queued = b :: rest) (hm : s.queue_mpu.slot = none)
    (ha : s.accel = (0, 0, 0)) :
    (app_update bufSize ack s).2 =
      List.replicate bufSize (Effect.btWrite 0) ++ [Effect.bufRelease b] ++
        (if ack then [] else [Effect.errorRaise]) := by
  rcases s with ⟨⟨f, qd, dt⟩, acc, ⟨mslot⟩⟩
  dsimp only at hq hm ha
  subst hq; subst hm; subst ha
  simp [app_update, xQueueReceive, buffer_queue_get_inuse, buffer_queue_return,
        bq_read, mul_zero]

/-- C6 witness: the amended all-zero forwarding at the concrete
pre-first-vector state. -/
theorem c6_initial_scale_zero_witness :
    (app_update 8 true scale_state).2 =
      List.replicate 8 (Effect.btWrite 0) ++ [Effect.bufRelease 0] ++
        (if true then [] else [Effect.errorRaise]) :=
  c6_initial_scale_zero 8 true scale_state 0 [] rfl rfl rfl

/-- C7 (confirmed): whenever the consumer acquires a full buffer and the
acknowledgment does not arrive within the timeout, semaphore_error is given
exactly once that iteration; and the buffer is released back to the pool
whether or not the acknowledgment arrives (buffer_queue_return precedes the
acknowledgment wait in app_update). -/
theorem c7_ack_timeout_error_once_release (bufSize : Nat) (s : AppState) (b : Nat)
    (rest : List Nat) (hq : s.pool.queued = b :: rest) :
    (app_update bufSize false s).2.count Effect.errorRaise = 1 ∧
      Effect.bufRelease b ∈ (app_update bufSize false s).2 ∧
      Effect.bufRelease b ∈ (app_update bufSize true s).2 ∧
      (app_update bufSize true s).2.count Effect.errorRaise = 0 := by
  rcases s with ⟨⟨f, qd, dt⟩, acc, ⟨mslot⟩⟩
  dsimp only at hq
  subst hq
  cases mslot <;>
    simp [app_update, xQueueReceive, buffer_queue_get_inuse, buffer_queue_return,
          List.count_append, List.count_cons, List.count_eq_zero, List.mem_map]

/-- C7 witness: the acknowledgment-timeout behaviour at a concrete state
with slot 0 queued. -/
theorem c7_ack_timeout_witness :
    (app_update 8 false scale_state).2.count Effect.errorRaise = 1 ∧
      Effect.bufRelease 0 ∈ (app_update 8 false scale_state).2 ∧
      Effect.bufRelease 0 ∈ (app_update 8 true scale_state).2 ∧
      (app_update 8 true scale_state).2.count Effect.errorRaise = 0 :=
  c7_ack_timeout_error_once_release 8 scale_state 0 [] rfl

/-- C8 (confirmed): for any sequence of increment and decrement edges
applied by config_update, a period starting within [minRate, maxRate]
never leaves [minRate, maxRate]: increments are rejected at maxRate and
decrements at minRate. -/
theorem c8_period_bounded (minRate maxRate : ℤ) (evs : List ButtonEvent) (s : ConfigState)
    (h1 : minRate ≤ s.sample_period) (h2 : s.sample_period ≤ maxRate) :
    minRate ≤ (config_run minRate maxRate evs s).sample_period ∧
      (config_run minRate maxRate evs s).sample_period ≤ maxRate := by
  induction evs generalizing s with
  | nil => exact ⟨h1, h2⟩
  | cons e rest ih =>
      obtain ⟨g1, g2⟩ := config_update_period_bounds minRate maxRate e s h1 h2
      exact ih (config_update minRate maxRate e s) g1 g2

/-- C8 witness: the bound on the concrete Scenario C run. -/
theorem c8_period_bounded_witness :
    0 ≤ (config_run 0 9 (List.replicate 20 increase_event) scenC_init).sample_period ∧
      (config_run 0 9 (List.replicate 20 increase_event) scenC_init).sample_period ≤ 9 :=
  c8_period_bounded 0 9 (List.replicate 20 increase_event) scenC_init (by decide) (by decide)

/-- C9 (confirmed): when the producer task consumes a pending config-changed
signal, only the iteration delay is recomputed (from the current
sample_period): the checked-out buffer reference, the fill counter, the
pool (including every partially filled buffer content) and the period value
itself are unchanged by the reload, so the in-progress buffer is not
lost. -/
theorem c9_config_reload_frame (s : TaskAdcState) (h : s.config_signal = true) :
    (adc_config_reload s).current_buffer = s.current_buffer ∧
      (adc_config_reload s).samples_in_buffer = s.samples_in_buffer ∧
      (adc_config_reload s).pool = s.pool ∧
      (adc_config_reload s).sample_period = s.sample_period ∧
      (adc_config_reload s).task_delay = adc_task_delay s.sample_period ∧
      (adc_config_reload s).config_signal = false := by
  simp [adc_config_reload, h]

/-- C9 witness: the reload at a concrete state with a half-filled buffer
checked out and a stale delay. -/
theorem c9_config_reload_frame_witness :
    (adc_config_reload reload_state).current_buffer = reload_state.current_buffer ∧
      (adc_config_reload reload_state).samples_in_buffer = reload_state.samples_in_buffer ∧
      (adc_config_reload reload_state).pool = reload_state.pool ∧
      (adc_config_reload reload_state).sample_period = reload_state.sample_period ∧
      (adc_config_reload reload_state).task_delay = adc_task_delay reload_state.sample_period ∧
      (adc_config_reload reload_state).config_signal = false :=
  c9_config_reload_frame reload_state rfl

/-- C10 (confirmed): starting from the vTaskADC initial state (no buffer
checked out) with any pool, every sample write performed by any sequence of
adc_update iterations lands at an index strictly below the buffer size (the
counter is a Nat, so 0 <= index holds by construction): no store goes
outside the checked-out buffer. -/
theorem c10_writes_in_bounds (bufSize : Nat) (hb : 1 ≤ bufSize) (s : AdcState)
    (h0 : s.current_buffer = none) (samples : List Nat) :
    writes_in_bounds bufSize (adc_run bufSize s samples).2 := by
  apply adc_run_bounds bufSize hb samples s
  intro b hbb
  rw [h0] at hbb
  exact absurd hbb (by simp)

set_option maxRecDepth 100000 in
/-- C10 witness: every write of the 41-iteration Scenario A run is in
bounds. -/
theorem c10_writes_in_bounds_witness :
    writes_in_bounds 8 (adc_run 8 scenA_init (List.range 41)).2 :=
  c10_writes_in_bounds 8 (by decide) scenA_init rfl (List.range 41)

end App
